import Mathlib

/-!
Shallow embedding of the simulation core of the endless-runner game in
`src/components/Game3D.tsx`, together with theorems settling the claims
about its state machine, per-tick simulation loop, collision detection
and callback behaviour.

Modelling conventions:
* JavaScript numbers are modelled as exact rationals (`ℚ`); the score is a
  natural number (it starts at 0 and only ever increments by 1).  The speed
  ramp — the one computation of the loop whose observable behaviour depends
  on binary64 rounding, because its accumulated sum decides the guard at
  the cap — is modelled with explicit IEEE-754 round-to-nearest-even
  (`fl64`, `rampSpeed`); the other additions are kept exact, as their
  sub-ulp rounding error is immaterial to the stated properties.
* The mutable `stateRef.current` record, the runner group's position
  (`runnerRef.current.position`), and the entity stores (`obstaclesRef`,
  `coinsRef`, `sceneryRef`) are gathered into one `GameState` record.
  For scenery items only the z coordinate is gameplay-relevant, so the
  scenery store is a list of z coordinates.
* The two `Math.random()` spawn rolls and the two random lane choices made
  in one call of `animate` are supplied as an explicit `TickRand` oracle.
* Purely visual effects (limb animation, camera interpolation, coin spin,
  track recycling, sounds, rendering) carry no gameplay state read by the
  core logic and are not part of the state record.
* The `onGameOver` and `onUpdateStats` callback invocations performed
  during one call of `animate` are returned as an explicit `TickEvents`
  record (the argument passed to each call, in order).
-/

namespace Game3D

/-- Position of a world entity (an obstacle or a coin): the components of
`mesh.position` that the game logic reads and writes. -/
structure Entity where
  x : ℚ
  y : ℚ
  z : ℚ
  deriving DecidableEq

/-- The combined mutable game state: the fields of `stateRef.current`, the
runner group's position (`runnerX`/`runnerY`), and the entity stores. -/
structure GameState where
  score : ℕ
  speed : ℚ
  distance : ℚ
  lane : ℤ
  isRunning : Bool
  isGameOver : Bool
  isJumping : Bool
  jumpVelocity : ℚ
  cameraOffset : ℚ
  runnerX : ℚ
  runnerY : ℚ
  obstacles : List Entity
  coins : List Entity
  scenery : List ℚ
  deriving DecidableEq

/-- The state at session start: the initializer of `stateRef` together with
`runnerGroup.position.set(0, 0, 0)` and empty obstacle/coin stores.  The
scenery store is filled by `initScenery` with randomly placed items, so it
is a parameter. -/
def initState (scenery : List ℚ) : GameState :=
  { score := 0
    speed := 1/2
    distance := 0
    lane := 0
    isRunning := false
    isGameOver := false
    isJumping := false
    jumpVelocity := 0
    cameraOffset := 0
    runnerX := 0
    runnerY := 0
    obstacles := []
    coins := []
    scenery := scenery }

/-- Source `startGame`: sets the two flags and nothing else. -/
def startGame (s : GameState) : GameState :=
  { s with isRunning := true, isGameOver := false }

/-- Source `resetGame`: replaces `stateRef.current` with a fresh record
(with `isRunning := true`), resets the runner position to the origin and
clears the obstacle and coin stores.  The scenery store is not touched. -/
def resetGame (s : GameState) : GameState :=
  { score := 0
    speed := 1/2
    distance := 0
    lane := 0
    isRunning := true
    isGameOver := false
    isJumping := false
    jumpVelocity := 0
    cameraOffset := 0
    runnerX := 0
    runnerY := 0
    obstacles := []
    coins := []
    scenery := s.scenery }

/-- Source `moveLeft`: decrement the lane if it is above -1 and the game is
not over; otherwise do nothing. -/
def moveLeft (s : GameState) : GameState :=
  if -1 < s.lane ∧ s.isGameOver = false then { s with lane := s.lane - 1 } else s

/-- Source `moveRight`: increment the lane if it is below 1 and the game is
not over; otherwise do nothing. -/
def moveRight (s : GameState) : GameState :=
  if s.lane < 1 ∧ s.isGameOver = false then { s with lane := s.lane + 1 } else s

/-- Source `jump`: if not already jumping and the game is not over, begin a
jump with upward velocity 0.4 (the jump sound is a fire-and-forget side
effect with no game state). -/
def jump (s : GameState) : GameState :=
  if s.isJumping = false ∧ s.isGameOver = false then
    { s with isJumping := true, jumpVelocity := 2/5 }
  else s

/-- Source `gameOver` (state part): stop running and mark the game over.
The accompanying `onGameOver(score)` callback is accounted for in `tick`. -/
def gameOver (s : GameState) : GameState :=
  { s with isRunning := false, isGameOver := true }

/-- The random draws consumed by one call of `animate`: whether each of the
two `Math.random()` spawn rolls succeeded, and the random lane
(`Math.floor(Math.random()*3) - 1`, always in {-1,0,1}) used by each
spawn. -/
structure TickRand where
  spawnObstacleRoll : Bool
  obstacleLane : ℤ
  spawnCoinRoll : Bool
  coinLane : ℤ
  deriving DecidableEq

/-- Source `spawnObstacle`: push a 2x2x2 box at `(lane*5, 1, -150)`. -/
def spawnObstacle (lane : ℤ) (l : List Entity) : List Entity :=
  l ++ [{ x := (lane : ℚ) * 5, y := 1, z := -150 }]

/-- Source `spawnCoin`: push a coin at `(lane*5, 1.5, -150)`. -/
def spawnCoin (lane : ℤ) (l : List Entity) : List Entity :=
  l ++ [{ x := (lane : ℚ) * 5, y := 3/2, z := -150 }]

/-- Runner physics of one `animate` call (section 2 of the loop body, which
runs before the `isRunning`/`isGameOver` early return): exponential lateral
smoothing `x += (lane*5 - x) * 0.15`, and, while jumping, vertical Euler
integration `y += v; v -= 0.02`, landing (`y := 0`, `isJumping := false`)
when the new height is at or below the ground. -/
def stepRunnerPhysics (s : GameState) : GameState :=
  let x1 := s.runnerX + ((s.lane : ℚ) * 5 - s.runnerX) * (3/20)
  if s.isJumping then
    let y1 := s.runnerY + s.jumpVelocity
    let v1 := s.jumpVelocity - 1/50
    if y1 ≤ 0 then
      { s with runnerX := x1, runnerY := 0, jumpVelocity := v1, isJumping := false }
    else
      { s with runnerX := x1, runnerY := y1, jumpVelocity := v1 }
  else
    { s with runnerX := x1 }

/-- Per-tick translation of an obstacle or coin: `position.z += speed`. -/
def stepEntity (speed : ℚ) (e : Entity) : Entity :=
  { e with z := e.z + speed }

/-- Per-tick scenery translation and recycling: `z += speed`, and any item
that has passed the camera (`z > 20`) is recycled far ahead at `-1000`. -/
def stepScenery (speed : ℚ) (z : ℚ) : ℚ :=
  if 20 < z + speed then -1000 else z + speed

/-- Round a rational to the nearest integer, ties to even — the rounding
rule of IEEE-754 round-to-nearest. -/
def rne (q : ℚ) : ℤ :=
  if q - (⌊q⌋ : ℚ) < 1/2 then ⌊q⌋
  else if 1/2 < q - (⌊q⌋ : ℚ) then ⌊q⌋ + 1
  else if Even ⌊q⌋ then ⌊q⌋ else ⌊q⌋ + 1

/-- Binary64 (IEEE-754 double, the JavaScript number format) rounding of a
positive rational in the normal range: round to the nearest multiple of
the unit in the last place `2 ^ (e - 52)`, ties to even, where
`e = ⌊log₂ q⌋` is the binade exponent.  Non-positive inputs map to 0, and
overflow/subnormal handling is omitted — irrelevant for the magnitudes
that occur here.  A JavaScript addition `x + y` yields the correctly
rounded sum `fl64 (x + y)` of the exact operand values. -/
def fl64 (q : ℚ) : ℚ :=
  if q ≤ 0 then 0
  else (rne (q / 2 ^ (Int.log 2 q - 52)) : ℚ) * 2 ^ (Int.log 2 q - 52)

/-- The exact value of the binary64 number denoted by the source literal
`0.0001` (the speed ramp step): `7378697629483821 × 2⁻⁶⁶`, slightly above
one ten-thousandth. -/
def ramp64 : ℚ := 7378697629483821 / 2 ^ 66

/-- The exact value of the binary64 number denoted by the source literal
`1.2` (the speed cap): `5404319552844595 × 2⁻⁵²`, slightly below 6/5. -/
def maxSpeed64 : ℚ := 5404319552844595 / 2 ^ 52

/-- The speed ramp of one gameplay tick under the source's binary64
arithmetic: `if (speed < 1.2) { speed += 0.0001 }` compares the speed with
the binary64 value of `1.2` and adds with binary64 rounding.  The ramp is
the one computation of the loop whose result depends on the rounding (the
accumulated sum decides the guard at the cap), so it is modelled with
explicit binary64 rounding; the loop's other additions are kept exact. -/
def rampSpeed (q : ℚ) : ℚ :=
  if q < maxSpeed64 then fl64 (q + ramp64) else q

/-- Speed reached after `k` ramp increments from the base speed 0.5. -/
def rampTraj (k : ℕ) : ℚ :=
  rampSpeed^[k] (1/2)

/-- Speeds reachable by the ramp from the base speed. -/
def speedReach (q : ℚ) : Prop :=
  ∃ k : ℕ, q = rampTraj k

/-- Obstacle collision predicate of the source, evaluated at the obstacle's
current position `e` and runner pose `(rX, rY)`: longitudinal band
`-2 < z < 2`, lateral distance `|e.x - rX| < 2`, jump clearance
`rY < 1.8`. -/
def obstacleCollides (rX rY : ℚ) (e : Entity) : Bool :=
  decide (-2 < e.z) && decide (e.z < 2) && decide (|e.x - rX| < 2) && decide (rY < 9/5)

/-- Coin collision predicate of the source: band `-1.5 < z < 1.5`, lateral
distance `|e.x - rX| < 1.5`, vertical distance `|e.y - rY - 1| < 2.5`. -/
def coinCollides (rX rY : ℚ) (e : Entity) : Bool :=
  decide (-3/2 < e.z) && decide (e.z < 3/2) &&
    decide (|e.x - rX| < 3/2) && decide (|e.y - rY - 1| < 5/2)

/-- The obstacle loop of `animate`: each obstacle is translated forward by
`speed`, then tested against the runner pose; every obstacle that passes
the collision test triggers one `gameOver()` call (the count is returned —
the loop does not stop or guard after the first hit), and obstacles past
the cull threshold (`z > 10` after translation) are removed.  The source
iterates from the last index down to 0 and splices; since each element is
visited exactly once and removal of the visited element does not affect
the others, this per-element recursion has the same effect. -/
def processObstacles (speed rX rY : ℚ) : List Entity → List Entity × ℕ
  | [] => ([], 0)
  | e :: rest =>
    let e1 := stepEntity speed e
    let r := processObstacles speed rX rY rest
    let n := if obstacleCollides rX rY e1 then r.2 + 1 else r.2
    if 10 < e1.z then (r.1, n) else (e1 :: r.1, n)

/-- The coin loop of `animate`: each coin is translated forward by `speed`
(the visual spin is dropped), then tested; a colliding coin is consumed —
it is removed from the store and contributes 1 to the returned score
increment — and a non-colliding coin past the cull threshold is removed. -/
def processCoins (speed rX rY : ℚ) : List Entity → List Entity × ℕ
  | [] => ([], 0)
  | e :: rest =>
    let e1 := stepEntity speed e
    let r := processCoins speed rX rY rest
    if coinCollides rX rY e1 then (r.1, r.2 + 1)
    else if 10 < e1.z then (r.1, r.2)
    else (e1 :: r.1, r.2)

/-- Snapshot passed to `onUpdateStats` at the end of a gameplay tick. -/
structure StatsSnapshot where
  score : ℕ
  speed : ℚ
  distance : ℚ
  deriving DecidableEq

/-- The callback invocations performed during one call of `animate`:
the scores passed to `onGameOver` (one entry per call, in order) and the
snapshots passed to `onUpdateStats`. -/
structure TickEvents where
  gameOverCalls : List ℕ
  statsCalls : List StatsSnapshot
  deriving DecidableEq

/-- Obstacle store right after the spawn step of a tick, given the
post-physics state: the old store plus the newly pushed obstacle when the
spawn roll succeeded. -/
def tickObstaclePool (r : TickRand) (s : GameState) : List Entity :=
  if r.spawnObstacleRoll then spawnObstacle r.obstacleLane s.obstacles else s.obstacles

/-- Coin store right after the spawn step of a tick, given the post-physics
state. -/
def tickCoinPool (r : TickRand) (s : GameState) : List Entity :=
  if r.spawnCoinRoll then spawnCoin r.coinLane s.coins else s.coins

/-- Number of `gameOver()` invocations performed by the obstacle loop of a
tick starting from `s0` (zero when the early return is taken is accounted
for in `tick` itself). -/
def tickCrashes (r : TickRand) (s0 : GameState) : ℕ :=
  let s := stepRunnerPhysics s0
  (processObstacles s.speed s.runnerX s.runnerY (tickObstaclePool r s)).2

/-- One call of the source `animate` function, following its statement
order exactly: runner physics (always), then the early return when not
running or game over, then — capturing `speed` once — scenery translation
and recycling, the two Bernoulli spawns, the obstacle loop (translation,
collision with `gameOver()` per hit, cull), the coin loop (translation,
consumption, cull), distance accrual, the binary64 speed ramp
(`rampSpeed`), and finally the `onUpdateStats` call with the freshly
mutated counters.  Every `gameOver()`
call fires `onGameOver` with the score current at that moment, which the
loop has not yet changed (coins are consumed only afterwards). -/
def tick (r : TickRand) (s0 : GameState) : GameState × TickEvents :=
  let s := stepRunnerPhysics s0
  if s.isRunning = false ∨ s.isGameOver = true then (s, ⟨[], []⟩)
  else
    let speed := s.speed
    let scenery1 := s.scenery.map (stepScenery speed)
    let ob := processObstacles speed s.runnerX s.runnerY (tickObstaclePool r s)
    let co := processCoins speed s.runnerX s.runnerY (tickCoinPool r s)
    let score1 := s.score + co.2
    let distance1 := s.distance + speed
    let speed1 := rampSpeed speed
    let s1 : GameState :=
      { s with
        scenery := scenery1
        obstacles := ob.1
        coins := co.1
        isRunning := if 0 < ob.2 then false else s.isRunning
        isGameOver := if 0 < ob.2 then true else s.isGameOver
        score := score1
        distance := distance1
        speed := speed1 }
    (s1, ⟨List.replicate ob.2 s.score, [⟨score1, speed1, distance1⟩]⟩)

/-- Iterated simulation: run one tick per element of the oracle list. -/
def ticksRun (rs : List TickRand) (s : GameState) : GameState :=
  rs.foldl (fun st r => (tick r st).1) s

/-- Lane invariant of the spec: the lane is one of the three tracks. -/
def laneOK (s : GameState) : Prop :=
  s.lane = -1 ∨ s.lane = 0 ∨ s.lane = 1

/-- Flag exclusion invariant: never running and game over at once. -/
def flagsOK (s : GameState) : Prop :=
  ¬(s.isRunning = true ∧ s.isGameOver = true)

/-- A tick oracle with both spawn rolls failed. -/
def noRand : TickRand :=
  ⟨false, 0, false, 0⟩

/-- A running base state with empty stores and the runner at the origin of
lane 0, used to build the concrete test states below. -/
def baseState : GameState :=
  { score := 0
    speed := 1/2
    distance := 0
    lane := 0
    isRunning := true
    isGameOver := false
    isJumping := false
    jumpVelocity := 0
    cameraOffset := 0
    runnerX := 0
    runnerY := 0
    obstacles := []
    coins := []
    scenery := [] }

/-- Running state with two obstacles simultaneously inside the collision
window of the runner's lane. -/
def c1State : GameState :=
  { baseState with score := 7, obstacles := [⟨0, 1, -1⟩, ⟨0, 1, 0⟩] }

/-- Running state with a single obstacle inside the collision window. -/
def c2State : GameState :=
  { baseState with score := 3, obstacles := [⟨0, 1, 0⟩] }

/-- Running state with an obstacle at z = -2.2: outside the collision band
before this tick's translation, inside it after translating by the speed
0.5. -/
def c3State : GameState :=
  { baseState with obstacles := [⟨0, 1, -11/5⟩] }

/-- Game-over state with nonzero counters, as left behind by a crash. -/
def c4State : GameState :=
  { baseState with
      score := 5, speed := 9/10, distance := 100, lane := 1,
      isRunning := false, isGameOver := true, runnerX := 5 }

/-- Idle state (not running, not game over) whose lane was changed to -1 by
a `moveLeft` call, so lateral smoothing has a nonzero target. -/
def c5State : GameState :=
  { baseState with isRunning := false, lane := -1 }

/-- Running state with one coin inside the coin collision window. -/
def c8State : GameState :=
  { baseState with score := 3, coins := [⟨0, 3/2, -1/2⟩] }

end Game3D

namespace Game3D

theorem stepRunnerPhysics_score (s : GameState) :
    (stepRunnerPhysics s).score = s.score := by
  unfold stepRunnerPhysics
  dsimp only
  split
  · split <;> rfl
  · rfl

theorem stepRunnerPhysics_speed (s : GameState) :
    (stepRunnerPhysics s).speed = s.speed := by
  unfold stepRunnerPhysics
  dsimp only
  split
  · split <;> rfl
  · rfl

theorem stepRunnerPhysics_distance (s : GameState) :
    (stepRunnerPhysics s).distance = s.distance := by
  unfold stepRunnerPhysics
  dsimp only
  split
  · split <;> rfl
  · rfl

theorem stepRunnerPhysics_lane (s : GameState) :
    (stepRunnerPhysics s).lane = s.lane := by
  unfold stepRunnerPhysics
  dsimp only
  split
  · split <;> rfl
  · rfl

theorem stepRunnerPhysics_isRunning (s : GameState) :
    (stepRunnerPhysics s).isRunning = s.isRunning := by
  unfold stepRunnerPhysics
  dsimp only
  split
  · split <;> rfl
  · rfl

theorem stepRunnerPhysics_isGameOver (s : GameState) :
    (stepRunnerPhysics s).isGameOver = s.isGameOver := by
  unfold stepRunnerPhysics
  dsimp only
  split
  · split <;> rfl
  · rfl

theorem stepRunnerPhysics_obstacles (s : GameState) :
    (stepRunnerPhysics s).obstacles = s.obstacles := by
  unfold stepRunnerPhysics
  dsimp only
  split
  · split <;> rfl
  · rfl

theorem stepRunnerPhysics_coins (s : GameState) :
    (stepRunnerPhysics s).coins = s.coins := by
  unfold stepRunnerPhysics
  dsimp only
  split
  · split <;> rfl
  · rfl

theorem stepRunnerPhysics_scenery (s : GameState) :
    (stepRunnerPhysics s).scenery = s.scenery := by
  unfold stepRunnerPhysics
  dsimp only
  split
  · split <;> rfl
  · rfl

theorem stepRunnerPhysics_runnerX (s : GameState) :
    (stepRunnerPhysics s).runnerX = s.runnerX + ((s.lane : ℚ) * 5 - s.runnerX) * (3/20) := by
  unfold stepRunnerPhysics
  dsimp only
  split
  · split <;> rfl
  · rfl

theorem tick_skip (r : TickRand) (s : GameState)
    (h : s.isRunning = false ∨ s.isGameOver = true) :
    tick r s = (stepRunnerPhysics s, ⟨[], []⟩) := by
  unfold tick
  rw [if_pos]
  rcases h with h | h
  · exact Or.inl (by rw [stepRunnerPhysics_isRunning, h])
  · exact Or.inr (by rw [stepRunnerPhysics_isGameOver, h])

theorem tick_run (r : TickRand) (s0 : GameState)
    (hR : s0.isRunning = true) (hG : s0.isGameOver = false) :
    tick r s0 =
      (let s := stepRunnerPhysics s0
       let ob := processObstacles s.speed s.runnerX s.runnerY (tickObstaclePool r s)
       let co := processCoins s.speed s.runnerX s.runnerY (tickCoinPool r s)
       ({ s with
          scenery := s.scenery.map (stepScenery s.speed)
          obstacles := ob.1
          coins := co.1
          isRunning := if 0 < ob.2 then false else s.isRunning
          isGameOver := if 0 < ob.2 then true else s.isGameOver
          score := s.score + co.2
          distance := s.distance + s.speed
          speed := rampSpeed s.speed },
        ⟨List.replicate ob.2 s.score,
         [⟨s.score + co.2, rampSpeed s.speed, s.distance + s.speed⟩]⟩)) := by
  unfold tick
  rw [if_neg]
  rw [stepRunnerPhysics_isRunning, stepRunnerPhysics_isGameOver, hR, hG]
  simp

theorem processObstacles_eq (speed rX rY : ℚ) (l : List Entity) :
    processObstacles speed rX rY l =
      ((l.map (stepEntity speed)).filter (fun e => !decide (10 < e.z)),
       (l.map (stepEntity speed)).countP (obstacleCollides rX rY)) := by
  induction l with
  | nil => rfl
  | cons e rest ih =>
    by_cases h1 : 10 < (stepEntity speed e).z <;>
      by_cases h2 : obstacleCollides rX rY (stepEntity speed e) = true <;>
        simp [processObstacles, List.filter_cons, List.countP_cons, ih, h1, h2]

theorem processCoins_eq (speed rX rY : ℚ) (l : List Entity) :
    processCoins speed rX rY l =
      ((l.map (stepEntity speed)).filter
         (fun e => !coinCollides rX rY e && !decide (10 < e.z)),
       (l.map (stepEntity speed)).countP (coinCollides rX rY)) := by
  induction l with
  | nil => rfl
  | cons e rest ih =>
    by_cases h1 : 10 < (stepEntity speed e).z <;>
      by_cases h2 : coinCollides rX rY (stepEntity speed e) = true <;>
        simp [processCoins, List.filter_cons, List.countP_cons, ih, h1, h2]

end Game3D

namespace Game3D

theorem tick_gameOverCalls_run (r : TickRand) (s : GameState)
    (hR : s.isRunning = true) (hG : s.isGameOver = false) :
    (tick r s).2.gameOverCalls = List.replicate (tickCrashes r s) s.score := by
  rw [tick_run r s hR hG]
  dsimp only
  rw [stepRunnerPhysics_score]
  rfl

theorem tick_isGameOver_run (r : TickRand) (s : GameState)
    (hR : s.isRunning = true) (hG : s.isGameOver = false) :
    ((tick r s).1.isGameOver = true ↔ 0 < tickCrashes r s) := by
  rw [tick_run r s hR hG]
  dsimp only
  rw [stepRunnerPhysics_isGameOver, hG]
  by_cases hn :
      0 < (processObstacles (stepRunnerPhysics s).speed (stepRunnerPhysics s).runnerX
            (stepRunnerPhysics s).runnerY (tickObstaclePool r (stepRunnerPhysics s))).2 <;>
    simp [hn, tickCrashes]

theorem tick_statsCalls_run (r : TickRand) (s : GameState)
    (hR : s.isRunning = true) (hG : s.isGameOver = false) :
    (tick r s).2.statsCalls =
      [⟨(tick r s).1.score, (tick r s).1.speed, (tick r s).1.distance⟩] := by
  rw [tick_run r s hR hG]

theorem tick_score_run (r : TickRand) (s : GameState)
    (hR : s.isRunning = true) (hG : s.isGameOver = false) :
    (tick r s).1.score =
      s.score +
        ((tickCoinPool r (stepRunnerPhysics s)).map
            (stepEntity (stepRunnerPhysics s).speed)).countP
          (coinCollides (stepRunnerPhysics s).runnerX (stepRunnerPhysics s).runnerY) := by
  rw [tick_run r s hR hG]
  dsimp only
  rw [stepRunnerPhysics_score, processCoins_eq]

theorem tick_coins_run (r : TickRand) (s : GameState)
    (hR : s.isRunning = true) (hG : s.isGameOver = false) :
    (tick r s).1.coins =
      ((tickCoinPool r (stepRunnerPhysics s)).map
          (stepEntity (stepRunnerPhysics s).speed)).filter
        (fun e =>
          !coinCollides (stepRunnerPhysics s).runnerX (stepRunnerPhysics s).runnerY e &&
            !decide (10 < e.z)) := by
  rw [tick_run r s hR hG]
  dsimp only
  rw [processCoins_eq]

theorem not_run_of_not_and {s : GameState}
    (hc : ¬(s.isRunning = true ∧ s.isGameOver = false)) :
    s.isRunning = false ∨ s.isGameOver = true := by
  cases hr : s.isRunning
  · exact Or.inl rfl
  · cases hg : s.isGameOver
    · exact absurd ⟨hr, hg⟩ hc
    · exact Or.inr rfl

end Game3D

namespace Game3D

/-- C1 counterexample: in a single Running tick where two obstacles both
satisfy the collision predicate (lane-0 obstacles at z = -1 and z = 0,
runner at the origin, speed 0.5), `onGameOver` is invoked twice — once per
colliding obstacle — each time with the score 7, refuting the claim that
it is invoked at most once per tick. -/
theorem c1_counterexample :
    (tick noRand c1State).2.gameOverCalls = [7, 7] ∧
    (tick noRand c1State).1.isGameOver = true := by
  norm_num [tick, stepRunnerPhysics, processObstacles, processCoins,
    tickObstaclePool, tickCoinPool, spawnObstacle, spawnCoin, stepEntity,
    stepScenery, obstacleCollides, coinCollides, noRand, c1State, baseState,
    List.replicate]

/-- C1 (amended): in a tick that begins Running, `onGameOver(score)` is
fired once per obstacle satisfying the collision predicate (so at least
once per Running → GameOver transition, but possibly several times in the
crash tick), always carrying the score at the moment of collision (coin
consumption happens later in the tick); in a tick that does not begin
Running with the game not over — in particular while the state remains
GameOver — it is never fired, and the transition to GameOver happens
exactly when at least one such call is fired. -/
theorem c1_amended (r : TickRand) (s : GameState) :
    ((tick r s).2.gameOverCalls =
      if s.isRunning = true ∧ s.isGameOver = false
      then List.replicate (tickCrashes r s) s.score else []) ∧
    ((tick r s).1.isGameOver = true ↔
      (s.isGameOver = true ∨ (s.isRunning = true ∧ s.isGameOver = false ∧
        0 < tickCrashes r s))) := by
  by_cases hc : s.isRunning = true ∧ s.isGameOver = false
  · rw [if_pos hc]
    refine ⟨tick_gameOverCalls_run r s hc.1 hc.2, ?_⟩
    rw [tick_isGameOver_run r s hc.1 hc.2]
    simp [hc.1, hc.2]
  · have h := not_run_of_not_and hc
    rw [tick_skip r s h, if_neg hc]
    refine ⟨rfl, ?_⟩
    rw [stepRunnerPhysics_isGameOver]
    constructor
    · exact fun hg => Or.inl hg
    · rintro (hg | ⟨hr, hg, _⟩)
      · exact hg
      · exact absurd ⟨hr, hg⟩ hc

/-- C2 counterexample: in the tick whose obstacle collision transitions the
state to GameOver (single colliding obstacle, score 3), the `onGameOver`
callback fires and the tick nevertheless still emits one `onUpdateStats`
snapshot at its end, while the state is already GameOver — refuting the
claim that no snapshot is observable once the state is GameOver. -/
theorem c2_counterexample :
    (tick noRand c2State).1.isGameOver = true ∧
    (tick noRand c2State).2.gameOverCalls = [3] ∧
    (tick noRand c2State).2.statsCalls ≠ [] := by
  norm_num [tick, stepRunnerPhysics, processObstacles, processCoins,
    tickObstaclePool, tickCoinPool, spawnObstacle, spawnCoin, stepEntity,
    stepScenery, obstacleCollides, coinCollides, noRand, c2State, baseState,
    List.replicate]

/-- C2 (amended): `onUpdateStats` is emitted exactly once per tick that
begins with the state Running (reflecting the counters after all of the
tick's mutations), including the crash tick itself, where it is emitted
after the transition to GameOver; in a tick that begins Idle or GameOver no
snapshot is emitted, so after the crash tick none occurs until `reset()`. -/
theorem c2_amended (r : TickRand) (s : GameState) :
    (tick r s).2.statsCalls =
      if s.isRunning = true ∧ s.isGameOver = false
      then [⟨(tick r s).1.score, (tick r s).1.speed, (tick r s).1.distance⟩]
      else [] := by
  by_cases hc : s.isRunning = true ∧ s.isGameOver = false
  · rw [if_pos hc]
    exact tick_statsCalls_run r s hc.1 hc.2
  · rw [if_neg hc, tick_skip r s (not_run_of_not_and hc)]

/-- C4 counterexample: calling `startGame` on a GameOver state whose run
ended with score 5, speed 0.9 and distance 100 transitions to Running but
keeps all three counters — the score after `start()` is 5, not 0 —
refuting the claim that `start()` yields fresh counters from every prior
state. -/
theorem c4_counterexample :
    c4State.isGameOver = true ∧
    (startGame c4State).isRunning = true ∧
    (startGame c4State).score = 5 ∧
    ¬((startGame c4State).score = 0 ∧ (startGame c4State).distance = 0 ∧
      (startGame c4State).speed = 1/2) := by
  norm_num [startGame, c4State, baseState]

/-- C4 (amended): `start()` sets `isRunning := true` and
`isGameOver := false` and changes nothing else — score, distance and speed
keep their prior values; from the initial Idle state those values are
already fresh, so there (and only by virtue of the prior state) `start()`
yields Running with score 0, distance 0 and speed 0.5. -/
theorem c4_amended (s : GameState) (sc : List ℚ) :
    (startGame s).isRunning = true ∧
    (startGame s).isGameOver = false ∧
    (startGame s).score = s.score ∧
    (startGame s).distance = s.distance ∧
    (startGame s).speed = s.speed ∧
    (startGame s).lane = s.lane ∧
    (startGame (initState sc)).score = 0 ∧
    (startGame (initState sc)).distance = 0 ∧
    (startGame (initState sc)).speed = 1/2 := by
  exact ⟨rfl, rfl, rfl, rfl, rfl, rfl, rfl, rfl, rfl⟩

/-- C7: `resetGame` from any state yields the Running state with lane 0,
base speed 0.5, distance 0, score 0, jump cleared (`isJumping = false`,
`jumpVelocity = 0`), `isGameOver = false`, the runner back at the origin,
and both entity stores emptied. -/
theorem c7_reset (s : GameState) :
    (resetGame s).isRunning = true ∧
    (resetGame s).isGameOver = false ∧
    (resetGame s).lane = 0 ∧
    (resetGame s).speed = 1/2 ∧
    (resetGame s).distance = 0 ∧
    (resetGame s).score = 0 ∧
    (resetGame s).isJumping = false ∧
    (resetGame s).jumpVelocity = 0 ∧
    (resetGame s).runnerX = 0 ∧
    (resetGame s).runnerY = 0 ∧
    (resetGame s).obstacles = [] ∧
    (resetGame s).coins = [] := by
  exact ⟨rfl, rfl, rfl, rfl, rfl, rfl, rfl, rfl, rfl, rfl, rfl, rfl⟩

end Game3D

namespace Game3D

theorem ticksRun_cons (r : TickRand) (rs : List TickRand) (s : GameState) :
    ticksRun (r :: rs) s = ticksRun rs (tick r s).1 := rfl

theorem ticksRun_skip {s : GameState} (h : s.isRunning = false)
    (rs : List TickRand) :
    (ticksRun rs s).score = s.score ∧ (ticksRun rs s).speed = s.speed ∧
    (ticksRun rs s).distance = s.distance ∧
    (ticksRun rs s).obstacles = s.obstacles ∧
    (ticksRun rs s).coins = s.coins ∧
    (ticksRun rs s).scenery = s.scenery ∧
    (ticksRun rs s).isRunning = false := by
  induction rs generalizing s with
  | nil => exact ⟨rfl, rfl, rfl, rfl, rfl, rfl, h⟩
  | cons r rs ih =>
    have ht : (tick r s).1 = stepRunnerPhysics s :=
      congrArg Prod.fst (tick_skip r s (Or.inl h))
    have hs : (stepRunnerPhysics s).isRunning = false := by
      rw [stepRunnerPhysics_isRunning]; exact h
    rw [ticksRun_cons, ht]
    obtain ⟨a, b, c, d, e, f, g⟩ := ih hs
    exact ⟨a.trans (stepRunnerPhysics_score s), b.trans (stepRunnerPhysics_speed s),
      c.trans (stepRunnerPhysics_distance s), d.trans (stepRunnerPhysics_obstacles s),
      e.trans (stepRunnerPhysics_coins s), f.trans (stepRunnerPhysics_scenery s), g⟩

/-- C3 counterexample: in `c3State` the single obstacle sits at z = -2.2 —
outside the collision band `(-2, 2)` at its pre-translation pose for this
tick, so under the claimed ordering (collision before translation) no
collision would fire — yet the tick first translates it by the speed 0.5
to z = -1.7 and then checks, and the tick does crash: the state
transitions to GameOver and `onGameOver` fires. -/
theorem c3_counterexample :
    c3State.obstacles.countP
        (obstacleCollides c3State.runnerX c3State.runnerY) = 0 ∧
    (tick noRand c3State).1.isGameOver = true ∧
    (tick noRand c3State).2.gameOverCalls = [0] := by
  norm_num [tick, stepRunnerPhysics, processObstacles, processCoins,
    tickObstaclePool, tickCoinPool, spawnObstacle, spawnCoin, stepEntity,
    stepScenery, obstacleCollides, coinCollides, noRand, c3State, baseState,
    List.replicate, List.countP_cons]

/-- C3 (amended): within a Running tick the order is runner physics, then
(after spawning) per-entity translation, then collision check, then
culling — so each collision check compares the runner's post-physics pose
for the tick against the entity's post-translation pose for the tick: the
tick crashes exactly when some obstacle of this tick's pool, once
translated by the current speed, satisfies the collision predicate at the
post-physics runner pose, and the score increases by the number of coins
of this tick's pool that, once translated, satisfy the coin predicate
there. -/
theorem c3_amended (r : TickRand) (s0 : GameState)
    (hR : s0.isRunning = true) (hG : s0.isGameOver = false) :
    ((tick r s0).2.gameOverCalls ≠ [] ↔
      0 < ((tickObstaclePool r (stepRunnerPhysics s0)).map
             (stepEntity (stepRunnerPhysics s0).speed)).countP
            (obstacleCollides (stepRunnerPhysics s0).runnerX
              (stepRunnerPhysics s0).runnerY)) ∧
    (tick r s0).1.score =
      s0.score +
        ((tickCoinPool r (stepRunnerPhysics s0)).map
            (stepEntity (stepRunnerPhysics s0).speed)).countP
          (coinCollides (stepRunnerPhysics s0).runnerX
            (stepRunnerPhysics s0).runnerY) := by
  constructor
  · rw [tick_gameOverCalls_run r s0 hR hG]
    simp [tickCrashes, processObstacles_eq, Nat.pos_iff_ne_zero]
  · exact tick_score_run r s0 hR hG

/-- C3 witness: the amended ordering statement instantiated at the running
base state with no entities and no spawns. -/
theorem c3_witness :
    ((tick noRand baseState).2.gameOverCalls ≠ [] ↔
      0 < ((tickObstaclePool noRand (stepRunnerPhysics baseState)).map
             (stepEntity (stepRunnerPhysics baseState).speed)).countP
            (obstacleCollides (stepRunnerPhysics baseState).runnerX
              (stepRunnerPhysics baseState).runnerY)) ∧
    (tick noRand baseState).1.score =
      baseState.score +
        ((tickCoinPool noRand (stepRunnerPhysics baseState)).map
            (stepEntity (stepRunnerPhysics baseState).speed)).countP
          (coinCollides (stepRunnerPhysics baseState).runnerX
            (stepRunnerPhysics baseState).runnerY) :=
  c3_amended noRand baseState rfl rfl

/-- C5 counterexample: `c5State` is Idle (`isRunning = false`,
`isGameOver = false`) with lane -1 and the runner still at x = 0; a single
tick moves the runner's lateral position to -0.75, refuting the claim that
runner physics does not advance while not running. -/
theorem c5_counterexample :
    c5State.isRunning = false ∧
    (tick noRand c5State).1.runnerX ≠ c5State.runnerX := by
  norm_num [tick, stepRunnerPhysics, c5State, baseState, noRand]

/-- C5 (amended): while `isRunning` is false, any number of ticks leaves
score, speed, distance and all three entity stores unchanged, keeps the
state non-running, and emits no callback at all — but the runner's
lateral smoothing (and jump integration) still advances every tick
regardless of the flags, as it runs before the early return. -/
theorem c5_amended (s : GameState) (r : TickRand) (rs : List TickRand)
    (h : s.isRunning = false) :
    (tick r s).2 = ⟨[], []⟩ ∧
    (tick r s).1.runnerX = s.runnerX + ((s.lane : ℚ) * 5 - s.runnerX) * (3/20) ∧
    (ticksRun rs s).score = s.score ∧
    (ticksRun rs s).speed = s.speed ∧
    (ticksRun rs s).distance = s.distance ∧
    (ticksRun rs s).obstacles = s.obstacles ∧
    (ticksRun rs s).coins = s.coins ∧
    (ticksRun rs s).scenery = s.scenery ∧
    (ticksRun rs s).isRunning = false := by
  have ht := tick_skip r s (Or.inl h)
  obtain ⟨a, b, c, d, e, f, g⟩ := ticksRun_skip h rs
  refine ⟨congrArg Prod.snd ht, ?_, a, b, c, d, e, f, g⟩
  rw [congrArg Prod.fst ht, stepRunnerPhysics_runnerX]

/-- C5 witness: the amended statement instantiated at the concrete Idle
state with lane -1 and a single tick. -/
theorem c5_witness :
    (tick noRand c5State).2 = ⟨[], []⟩ ∧
    (tick noRand c5State).1.runnerX =
      c5State.runnerX + ((c5State.lane : ℚ) * 5 - c5State.runnerX) * (3/20) ∧
    (ticksRun [noRand] c5State).score = c5State.score ∧
    (ticksRun [noRand] c5State).speed = c5State.speed ∧
    (ticksRun [noRand] c5State).distance = c5State.distance ∧
    (ticksRun [noRand] c5State).obstacles = c5State.obstacles ∧
    (ticksRun [noRand] c5State).coins = c5State.coins ∧
    (ticksRun [noRand] c5State).scenery = c5State.scenery ∧
    (ticksRun [noRand] c5State).isRunning = false :=
  c5_amended c5State noRand [noRand] rfl

end Game3D

namespace Game3D

theorem tick_speed_cases (r : TickRand) (s : GameState) :
    (tick r s).1.speed = s.speed ∨ (tick r s).1.speed = rampSpeed s.speed := by
  by_cases hc : s.isRunning = true ∧ s.isGameOver = false
  · rw [tick_run r s hc.1 hc.2]
    dsimp only
    rw [stepRunnerPhysics_speed]
    exact Or.inr rfl
  · rw [tick_skip r s (not_run_of_not_and hc)]
    exact Or.inl (stepRunnerPhysics_speed s)

/-- C8: in a Running tick the score increases by exactly the number of
coins of this tick's pool that satisfy the coin collision predicate once
translated — one point per colliding coin — and every entity satisfying
the predicate (in particular each consumed coin) is absent from the coin
store the tick leaves behind, so a consumed coin can never be counted
again on a later tick. -/
theorem c8_coin (r : TickRand) (s : GameState) (e : Entity)
    (hR : s.isRunning = true) (hG : s.isGameOver = false)
    (he : coinCollides (stepRunnerPhysics s).runnerX
            (stepRunnerPhysics s).runnerY e = true) :
    (tick r s).1.score =
      s.score +
        ((tickCoinPool r (stepRunnerPhysics s)).map
            (stepEntity (stepRunnerPhysics s).speed)).countP
          (coinCollides (stepRunnerPhysics s).runnerX
            (stepRunnerPhysics s).runnerY) ∧
    e ∉ (tick r s).1.coins := by
  refine ⟨tick_score_run r s hR hG, ?_⟩
  rw [tick_coins_run r s hR hG]
  intro hmem
  have hp := List.of_mem_filter hmem
  simp [he] at hp

/-- C8 witness: the running state `c8State` holds score 3 and one coin
that, after translation by the speed 0.5, sits at `(0, 1.5, 0)` and
collides; the tick scores it (3 + 1) and removes it from the store. -/
theorem c8_witness :
    (tick noRand c8State).1.score =
      c8State.score +
        ((tickCoinPool noRand (stepRunnerPhysics c8State)).map
            (stepEntity (stepRunnerPhysics c8State).speed)).countP
          (coinCollides (stepRunnerPhysics c8State).runnerX
            (stepRunnerPhysics c8State).runnerY) ∧
    (⟨0, 3/2, 0⟩ : Entity) ∉ (tick noRand c8State).1.coins :=
  c8_coin noRand c8State ⟨0, 3/2, 0⟩ rfl rfl
    (by norm_num [coinCollides, stepRunnerPhysics, c8State, baseState, abs_lt])

theorem moveLeft_lane (s : GameState) :
    (moveLeft s).lane =
      if -1 < s.lane ∧ s.isGameOver = false then s.lane - 1 else s.lane := by
  unfold moveLeft
  split <;> rfl

theorem moveRight_lane (s : GameState) :
    (moveRight s).lane =
      if s.lane < 1 ∧ s.isGameOver = false then s.lane + 1 else s.lane := by
  unfold moveRight
  split <;> rfl

theorem jump_lane (s : GameState) : (jump s).lane = s.lane := by
  unfold jump
  split <;> rfl

theorem tick_lane (r : TickRand) (s : GameState) :
    (tick r s).1.lane = s.lane := by
  by_cases hc : s.isRunning = true ∧ s.isGameOver = false
  · rw [tick_run r s hc.1 hc.2]
    exact stepRunnerPhysics_lane s
  · rw [tick_skip r s (not_run_of_not_and hc)]
    exact stepRunnerPhysics_lane s

theorem laneOK_moveLeft {s : GameState} (h : laneOK s) : laneOK (moveLeft s) := by
  have hml := moveLeft_lane s
  unfold laneOK at h ⊢
  rw [hml]
  by_cases c : -1 < s.lane ∧ s.isGameOver = false
  · rw [if_pos c]
    have hc := c.1
    omega
  · rw [if_neg c]; exact h

theorem laneOK_moveRight {s : GameState} (h : laneOK s) : laneOK (moveRight s) := by
  have hmr := moveRight_lane s
  unfold laneOK at h ⊢
  rw [hmr]
  by_cases c : s.lane < 1 ∧ s.isGameOver = false
  · rw [if_pos c]
    have hc := c.1
    omega
  · rw [if_neg c]; exact h

/-- C9: the lane is an integer always in {-1, 0, 1}: it is preserved by
every operation (moves clamp it to the range, `resetGame` and the initial
state put it at 0, and `startGame`, `jump` and the tick never change it);
`moveLeft` at lane -1 and `moveRight` at lane 1 are no-ops on the whole
state, and both moves are no-ops whenever `isGameOver` is true. -/
theorem c9_lane (s : GameState) (r : TickRand) (sc : List ℚ)
    (h : laneOK s) :
    laneOK (moveLeft s) ∧ laneOK (moveRight s) ∧ laneOK (startGame s) ∧
    laneOK (resetGame s) ∧ laneOK (jump s) ∧ laneOK ((tick r s).1) ∧
    laneOK (initState sc) ∧
    moveLeft { s with lane := -1 } = { s with lane := -1 } ∧
    moveRight { s with lane := 1 } = { s with lane := 1 } ∧
    moveLeft { s with isGameOver := true } = { s with isGameOver := true } ∧
    moveRight { s with isGameOver := true } = { s with isGameOver := true } := by
  refine ⟨laneOK_moveLeft h, laneOK_moveRight h, h, Or.inr (Or.inl rfl), ?_, ?_,
    Or.inr (Or.inl rfl), ?_, ?_, ?_, ?_⟩
  · unfold laneOK at h ⊢
    rw [jump_lane]
    exact h
  · unfold laneOK at h ⊢
    rw [tick_lane]
    exact h
  · simp [moveLeft]
  · simp [moveRight]
  · simp [moveLeft]
  · simp [moveRight]

/-- C9 witness: the lane invariant and boundary no-ops instantiated at the
running base state (lane 0). -/
theorem c9_witness :
    laneOK (moveLeft baseState) ∧ laneOK (moveRight baseState) ∧
    laneOK (startGame baseState) ∧ laneOK (resetGame baseState) ∧
    laneOK (jump baseState) ∧ laneOK ((tick noRand baseState).1) ∧
    laneOK (initState []) ∧
    moveLeft { baseState with lane := -1 } = { baseState with lane := -1 } ∧
    moveRight { baseState with lane := 1 } = { baseState with lane := 1 } ∧
    moveLeft { baseState with isGameOver := true } =
      { baseState with isGameOver := true } ∧
    moveRight { baseState with isGameOver := true } =
      { baseState with isGameOver := true } :=
  c9_lane baseState noRand [] (Or.inr (Or.inl rfl))

theorem flagsOK_tick (r : TickRand) {s : GameState} (h : flagsOK s) :
    flagsOK (tick r s).1 := by
  by_cases hc : s.isRunning = true ∧ s.isGameOver = false
  · rw [tick_run r s hc.1 hc.2]
    dsimp only
    unfold flagsOK
    dsimp only
    rintro ⟨h1, h2⟩
    by_cases hcond :
        0 < (processObstacles (stepRunnerPhysics s).speed (stepRunnerPhysics s).runnerX
              (stepRunnerPhysics s).runnerY (tickObstaclePool r (stepRunnerPhysics s))).2
    · rw [if_pos hcond] at h1
      exact Bool.noConfusion h1
    · rw [if_neg hcond, stepRunnerPhysics_isGameOver, hc.2] at h2
      exact Bool.noConfusion h2
  · rw [tick_skip r s (not_run_of_not_and hc)]
    unfold flagsOK at h ⊢
    rw [stepRunnerPhysics_isRunning, stepRunnerPhysics_isGameOver]
    exact h

/-- C10: the flags `isRunning` and `isGameOver` are never both true: the
initial state has both false, and each of `startGame`, `resetGame`, the
`gameOver` transition, `moveLeft`, `moveRight`, `jump` and the simulation
tick preserves the exclusion. -/
theorem c10_flags (s : GameState) (r : TickRand) (sc : List ℚ)
    (h : flagsOK s) :
    flagsOK (initState sc) ∧ flagsOK (startGame s) ∧ flagsOK (resetGame s) ∧
    flagsOK (gameOver s) ∧ flagsOK (moveLeft s) ∧ flagsOK (moveRight s) ∧
    flagsOK (jump s) ∧ flagsOK (tick r s).1 := by
  refine ⟨?_, ?_, ?_, ?_, ?_, ?_, ?_, flagsOK_tick r h⟩
  · simp [flagsOK, initState]
  · simp [flagsOK, startGame]
  · simp [flagsOK, resetGame]
  · simp [flagsOK, gameOver]
  · unfold flagsOK at h ⊢
    unfold moveLeft
    split <;> exact h
  · unfold flagsOK at h ⊢
    unfold moveRight
    split <;> exact h
  · unfold flagsOK at h ⊢
    unfold jump
    split <;> exact h

/-- C10 witness: the flag exclusion instantiated at the running base
state. -/
theorem c10_witness :
    flagsOK (initState []) ∧ flagsOK (startGame baseState) ∧
    flagsOK (resetGame baseState) ∧ flagsOK (gameOver baseState) ∧
    flagsOK (moveLeft baseState) ∧ flagsOK (moveRight baseState) ∧
    flagsOK (jump baseState) ∧ flagsOK (tick noRand baseState).1 :=
  c10_flags baseState noRand [] (by simp [flagsOK, baseState])

end Game3D

namespace Game3D

theorem rne_int_add (z : ℤ) (f : ℚ) (h0 : 0 ≤ f) (h : f < 1/2) :
    rne ((z : ℚ) + f) = z := by
  have hf : ⌊(z : ℚ) + f⌋ = z := by
    rw [add_comm, Int.floor_add_int, Int.floor_eq_zero_iff.mpr ⟨h0, by linarith⟩, zero_add]
  unfold rne
  rw [hf, if_pos (by linarith)]

theorem int_log_eq (q : ℚ) (e : ℤ) (hq : 0 < q)
    (hlo : (2 : ℚ) ^ e ≤ q) (hhi : q < (2 : ℚ) ^ (e + 1)) :
    Int.log 2 q = e := by
  have h1 : e ≤ Int.log 2 q := by
    rw [← Int.zpow_le_iff_le_log (by norm_num) hq]
    exact_mod_cast hlo
  have h2 : Int.log 2 q < e + 1 := by
    rw [← Int.lt_zpow_iff_log_lt (by norm_num) hq]
    exact_mod_cast hhi
  omega

theorem fl64_on_grid (q : ℚ) (e : ℤ) (hq : 0 < q)
    (hlo : (2 : ℚ) ^ e ≤ q) (hhi : q < (2 : ℚ) ^ (e + 1)) :
    fl64 q = (rne (q / 2 ^ (e - 52)) : ℚ) * 2 ^ (e - 52) := by
  unfold fl64
  rw [if_neg (not_le.mpr hq), int_log_eq q e hq hlo hhi]

theorem rampStep_loGrid (A : ℤ) (h1 : 2 ^ 52 ≤ A)
    (h2 : A * 2 ^ 13 + 7378697629483821 < 2 ^ 66) :
    fl64 ((A : ℚ) / 2 ^ 53 + ramp64) = ((A + 900719925474 : ℤ) : ℚ) / 2 ^ 53 := by
  have hA : (2 ^ 52 : ℚ) ≤ (A : ℚ) := by exact_mod_cast h1
  have hA2 : (A : ℚ) * 2 ^ 13 + 7378697629483821 < 2 ^ 66 := by exact_mod_cast h2
  have hq : (A : ℚ) / 2 ^ 53 + ramp64 =
      ((A : ℚ) * 2 ^ 13 + 7378697629483821) / 2 ^ 66 := by
    unfold ramp64
    field_simp
    ring
  have hq0 : (0 : ℚ) < ((A : ℚ) * 2 ^ 13 + 7378697629483821) / 2 ^ 66 := by
    apply div_pos ?_ (by norm_num)
    nlinarith
  have hlo : (2 : ℚ) ^ (-1 : ℤ) ≤ ((A : ℚ) * 2 ^ 13 + 7378697629483821) / 2 ^ 66 := by
    rw [show ((2:ℚ) ^ (-1 : ℤ)) = 1/2 by norm_num]
    rw [le_div_iff₀ (by norm_num)]
    nlinarith
  have hhi : ((A : ℚ) * 2 ^ 13 + 7378697629483821) / 2 ^ 66 < (2 : ℚ) ^ ((-1 : ℤ) + 1) := by
    rw [show ((-1 : ℤ) + 1) = 0 by norm_num, zpow_zero, div_lt_one (by norm_num)]
    exact hA2
  rw [hq, fl64_on_grid _ (-1) hq0 hlo hhi]
  have hz : (2 : ℚ) ^ ((-1 : ℤ) - 52) = ((2 : ℚ) ^ (53 : ℕ))⁻¹ := by
    rw [show ((-1 : ℤ) - 52) = -((53 : ℕ) : ℤ) by norm_num, zpow_neg, zpow_natCast]
  have hg : ((A : ℚ) * 2 ^ 13 + 7378697629483821) / 2 ^ 66 / (2 : ℚ) ^ ((-1 : ℤ) - 52) =
      ((A + 900719925474 : ℤ) : ℚ) + 813 / 8192 := by
    rw [hz, div_eq_mul_inv, inv_inv]
    push_cast
    field_simp
    ring
  rw [hg, rne_int_add _ _ (by norm_num) (by norm_num), hz, ← div_eq_mul_inv]

theorem rampStep_hiGrid (B : ℤ) (h1 : 2 ^ 66 ≤ B * 2 ^ 14 + 7378697629483821)
    (h2 : B * 2 ^ 14 + 7378697629483821 < 2 ^ 67) :
    fl64 ((B : ℚ) / 2 ^ 52 + ramp64) = ((B + 450359962737 : ℤ) : ℚ) / 2 ^ 52 := by
  have hB1 : (2 ^ 66 : ℚ) ≤ (B : ℚ) * 2 ^ 14 + 7378697629483821 := by exact_mod_cast h1
  have hB2 : (B : ℚ) * 2 ^ 14 + 7378697629483821 < 2 ^ 67 := by exact_mod_cast h2
  have hq : (B : ℚ) / 2 ^ 52 + ramp64 =
      ((B : ℚ) * 2 ^ 14 + 7378697629483821) / 2 ^ 66 := by
    unfold ramp64
    field_simp
    ring
  have hq0 : (0 : ℚ) < ((B : ℚ) * 2 ^ 14 + 7378697629483821) / 2 ^ 66 := by
    apply div_pos ?_ (by norm_num)
    nlinarith
  have hlo : (2 : ℚ) ^ (0 : ℤ) ≤ ((B : ℚ) * 2 ^ 14 + 7378697629483821) / 2 ^ 66 := by
    rw [zpow_zero, le_div_iff₀ (by norm_num)]
    nlinarith
  have hhi : ((B : ℚ) * 2 ^ 14 + 7378697629483821) / 2 ^ 66 < (2 : ℚ) ^ ((0 : ℤ) + 1) := by
    rw [show ((0 : ℤ) + 1) = 1 by norm_num, zpow_one, div_lt_iff₀ (by norm_num)]
    nlinarith
  rw [hq, fl64_on_grid _ 0 hq0 hlo hhi]
  have hz : (2 : ℚ) ^ ((0 : ℤ) - 52) = ((2 : ℚ) ^ (52 : ℕ))⁻¹ := by
    rw [show ((0 : ℤ) - 52) = -((52 : ℕ) : ℤ) by norm_num, zpow_neg, zpow_natCast]
  have hg : ((B : ℚ) * 2 ^ 14 + 7378697629483821) / 2 ^ 66 / (2 : ℚ) ^ ((0 : ℤ) - 52) =
      ((B + 450359962737 : ℤ) : ℚ) + 813 / 16384 := by
    rw [hz, div_eq_mul_inv, inv_inv]
    push_cast
    field_simp
    ring
  rw [hg, rne_int_add _ _ (by norm_num) (by norm_num), hz, ← div_eq_mul_inv]

theorem rampStep_cross :
    fl64 ((9007199254740496 : ℚ) / 2 ^ 53 + ramp64) = (4504049987332985 : ℚ) / 2 ^ 52 := by
  have h := rampStep_hiGrid 4503599627370248 (by norm_num) (by norm_num)
  have hin : ((4503599627370248 : ℤ) : ℚ) / 2 ^ 52 = (9007199254740496 : ℚ) / 2 ^ 53 := by
    norm_num
  rw [hin] at h
  rw [h]
  norm_num

end Game3D

namespace Game3D

theorem rampTraj_succ (k : ℕ) : rampTraj (k + 1) = rampSpeed (rampTraj k) := by
  unfold rampTraj
  rw [Function.iterate_succ_apply']

theorem rampTraj_phaseA (k : ℕ) (hk : k ≤ 5000) :
    rampTraj k = ((2 ^ 52 + k * 900719925474 : ℤ) : ℚ) / 2 ^ 53 := by
  induction k with
  | zero =>
    show (1 : ℚ)/2 = _
    norm_num
  | succ n ih =>
    have hn' : n ≤ 4999 := by omega
    have hn : (n : ℤ) ≤ 4999 := by exact_mod_cast hn'
    have hn0 : (0 : ℤ) ≤ (n : ℤ) := Int.natCast_nonneg n
    have hmul : (n : ℤ) * 900719925474 ≤ 4999 * 900719925474 :=
      mul_le_mul_of_nonneg_right hn (by norm_num)
    have hmul0 : (0 : ℤ) ≤ (n : ℤ) * 900719925474 := mul_nonneg hn0 (by norm_num)
    rw [rampTraj_succ, ih (by omega)]
    unfold rampSpeed
    rw [if_pos ?guard]
    case guard =>
      unfold maxSpeed64
      rw [div_lt_div_iff₀ (by norm_num) (by norm_num)]
      have : ((2 ^ 52 + (n : ℤ) * 900719925474 : ℤ) : ℚ) ≤ 2 ^ 52 + 4999 * 900719925474 := by
        exact_mod_cast by linarith
      nlinarith
    rw [rampStep_loGrid (2 ^ 52 + n * 900719925474) (by linarith) (by linarith)]
    congr 1
    push_cast
    ring

theorem rampTraj_5001 : rampTraj 5001 = (4504049987332985 : ℚ) / 2 ^ 52 := by
  have h := rampTraj_phaseA 5000 le_rfl
  have hcast : ((2 ^ 52 + (5000 : ℕ) * 900719925474 : ℤ) : ℚ) / 2 ^ 53 =
      (9007199254740496 : ℚ) / 2 ^ 53 := by
    norm_num
  rw [show (5001 = 5000 + 1) from rfl, rampTraj_succ, h, hcast]
  unfold rampSpeed
  rw [if_pos ?g]
  case g =>
    unfold maxSpeed64
    rw [div_lt_div_iff₀ (by norm_num) (by norm_num)]
    norm_num
  exact rampStep_cross

theorem rampTraj_phaseB (j : ℕ) (hj : j ≤ 2000) :
    rampTraj (5001 + j) =
      ((4504049987332985 + j * 450359962737 : ℤ) : ℚ) / 2 ^ 52 := by
  induction j with
  | zero =>
    rw [rampTraj_5001]
    norm_num
  | succ n ih =>
    have hn' : n ≤ 1999 := by omega
    have hn : (n : ℤ) ≤ 1999 := by exact_mod_cast hn'
    have hn0 : (0 : ℤ) ≤ (n : ℤ) := Int.natCast_nonneg n
    have hmul : (n : ℤ) * 450359962737 ≤ 1999 * 450359962737 :=
      mul_le_mul_of_nonneg_right hn (by norm_num)
    have hmul0 : (0 : ℤ) ≤ (n : ℤ) * 450359962737 := mul_nonneg hn0 (by norm_num)
    rw [show (5001 + (n + 1) = (5001 + n) + 1) from by omega, rampTraj_succ, ih (by omega)]
    unfold rampSpeed
    rw [if_pos ?guard]
    case guard =>
      unfold maxSpeed64
      rw [div_lt_div_iff₀ (by norm_num) (by norm_num)]
      have : ((4504049987332985 + (n : ℤ) * 450359962737 : ℤ) : ℚ) ≤
          4504049987332985 + 1999 * 450359962737 := by
        exact_mod_cast by linarith
      nlinarith
    rw [rampStep_hiGrid (4504049987332985 + n * 450359962737) (by linarith) (by linarith)]
    congr 1
    push_cast
    ring

theorem rampTraj_7001 : rampTraj 7001 = (5404769912806985 : ℚ) / 2 ^ 52 := by
  have h := rampTraj_phaseB 2000 le_rfl
  rw [show (5001 + 2000 = 7001) from rfl] at h
  rw [h]
  norm_num

theorem rampSpeed_fixed_final :
    rampSpeed ((5404769912806985 : ℚ) / 2 ^ 52) = (5404769912806985 : ℚ) / 2 ^ 52 := by
  unfold rampSpeed maxSpeed64
  rw [if_neg]
  rw [not_lt, div_le_div_iff₀ (by norm_num) (by norm_num)]
  norm_num

theorem rampTraj_const (k : ℕ) (hk : 7001 ≤ k) :
    rampTraj k = (5404769912806985 : ℚ) / 2 ^ 52 := by
  induction k, hk using Nat.le_induction with
  | base => exact rampTraj_7001
  | succ n hn ih => rw [rampTraj_succ, ih, rampSpeed_fixed_final]

end Game3D

namespace Game3D

theorem rampTraj_mono (k : ℕ) : rampTraj k ≤ rampTraj (k + 1) := by
  by_cases h1 : k ≤ 4999
  · rw [rampTraj_phaseA k (by omega), rampTraj_phaseA (k + 1) (by omega)]
    gcongr
    exact Nat.le_succ k
  · by_cases h2 : k = 5000
    · subst h2
      rw [rampTraj_phaseA 5000 le_rfl, show (5000 + 1 = 5001) from rfl, rampTraj_5001]
      rw [div_le_div_iff₀ (by norm_num) (by norm_num)]
      norm_num
    · by_cases h3 : k ≤ 7000
      · obtain ⟨j, rfl⟩ : ∃ j, k = 5001 + j := ⟨k - 5001, by omega⟩
        rw [rampTraj_phaseB j (by omega),
          show (5001 + j + 1 = 5001 + (j + 1)) from by omega,
          rampTraj_phaseB (j + 1) (by omega)]
        gcongr
        exact Nat.le_succ j
      · rw [rampTraj_const k (by omega), rampTraj_const (k + 1) (by omega)]

theorem rampTraj_le_final (k : ℕ) :
    rampTraj k ≤ (5404769912806985 : ℚ) / 2 ^ 52 := by
  rcases le_total k 7001 with h | h
  · exact (monotone_nat_of_le_succ rampTraj_mono h).trans_eq rampTraj_7001
  · rw [rampTraj_const k h]

theorem speedReach_tick (r : TickRand) {s : GameState} (h : speedReach s.speed) :
    speedReach (tick r s).1.speed := by
  obtain ⟨k, hk⟩ := h
  rcases tick_speed_cases r s with h1 | h1
  · exact ⟨k, h1.trans hk⟩
  · exact ⟨k + 1, by rw [h1, hk, rampTraj_succ]⟩

theorem speedReach_ticksRun (rs : List TickRand) {s : GameState}
    (h : speedReach s.speed) : speedReach (ticksRun rs s).speed := by
  induction rs generalizing s with
  | nil => exact h
  | cons r rs ih =>
    rw [ticksRun_cons]
    exact ih (speedReach_tick r h)

theorem speedReach_le {q : ℚ} (h : speedReach q) :
    q ≤ (5404769912806985 : ℚ) / 2 ^ 52 := by
  obtain ⟨k, rfl⟩ := h
  exact rampTraj_le_final k

theorem tick_clean {s : GameState} (hR : s.isRunning = true)
    (hG : s.isGameOver = false) (ho : s.obstacles = []) (hc : s.coins = []) :
    (tick noRand s).1.isRunning = true ∧ (tick noRand s).1.isGameOver = false ∧
    (tick noRand s).1.obstacles = [] ∧ (tick noRand s).1.coins = [] ∧
    (tick noRand s).1.speed = rampSpeed s.speed := by
  rw [tick_run noRand s hR hG]
  dsimp only
  have hpo : tickObstaclePool noRand (stepRunnerPhysics s) = [] := by
    simp [tickObstaclePool, noRand, stepRunnerPhysics_obstacles, ho]
  have hpc : tickCoinPool noRand (stepRunnerPhysics s) = [] := by
    simp [tickCoinPool, noRand, stepRunnerPhysics_coins, hc]
  rw [hpo, hpc]
  simp [processObstacles, processCoins, stepRunnerPhysics_speed,
    stepRunnerPhysics_isRunning, stepRunnerPhysics_isGameOver, hR, hG]

theorem ticksRun_clean (k : ℕ) {s : GameState} (hR : s.isRunning = true)
    (hG : s.isGameOver = false) (ho : s.obstacles = []) (hc : s.coins = []) :
    (ticksRun (List.replicate k noRand) s).speed = rampSpeed^[k] s.speed := by
  induction k generalizing s with
  | zero => rfl
  | succ n ih =>
    rw [List.replicate_succ, ticksRun_cons]
    obtain ⟨a, b, c, d, e⟩ := tick_clean hR hG ho hc
    rw [ih a b c d, e, Function.iterate_succ_apply]

/-- C6 counterexample: running 7001 consecutive ticks from the reset state
(base speed 0.5, both spawn rolls failing) drives the speed above 1.2
under the source's binary64 arithmetic: the accumulated ramp reaches
1.199999999999923… < 1.2 after 7000 increments, the guard `speed < 1.2`
admits one more, and the speed ends at 5404769912806985/2^52 ≈
1.2000999999999228 > 6/5 — refuting the claim that speed never exceeds
MAX_SPEED = 1.2. -/
theorem c6_counterexample :
    (ticksRun (List.replicate 7001 noRand) (resetGame baseState)).speed > 6/5 := by
  rw [ticksRun_clean 7001 rfl rfl rfl rfl]
  rw [show rampSpeed^[7001] (resetGame baseState).speed = rampTraj 7001 from rfl]
  rw [rampTraj_7001]
  norm_num

/-- C6 (amended): starting from the initial/reset state (speed = 0.5), the
speed trajectory is monotonically non-decreasing while running — each ramp
increment adds one binary64 step of about 0.0001 — but the cap is overshot
once: the accumulated sum undershoots 1.2 at the 7000th increment, the
guard fires one final time, and the speed reaches and then keeps the value
5404769912806985/2^52 ≈ 1.2000999999999228.  The speed therefore never
exceeds that overshoot value, which is below 1.2 + 0.0001, but it does
exceed MAX_SPEED = 1.2 itself. -/
theorem c6_amended (s : GameState) (sc : List ℚ) (rs rs2 : List TickRand) (k : ℕ) :
    rampTraj k ≤ rampTraj (k + 1) ∧
    (ticksRun (List.replicate k noRand) (resetGame s)).speed = rampTraj k ∧
    (ticksRun rs (resetGame s)).speed ≤ (5404769912806985 : ℚ) / 2 ^ 52 ∧
    (ticksRun rs2 (initState sc)).speed ≤ (5404769912806985 : ℚ) / 2 ^ 52 ∧
    (5404769912806985 : ℚ) / 2 ^ 52 ≤ 6/5 + 1/10000 := by
  refine ⟨rampTraj_mono k, ?_, ?_, ?_, ?_⟩
  · exact ticksRun_clean k rfl rfl rfl rfl
  · exact speedReach_le (speedReach_ticksRun rs ⟨0, rfl⟩)
  · exact speedReach_le (speedReach_ticksRun rs2 ⟨0, rfl⟩)
  · norm_num

end Game3D
